import Mathlib

/-!
# Verification of the bakingcake core against its specification

Shallow embedding of the bakingcake repository (`bakingcake/interest.py`,
`bakingcake/portfolio.py`, `bakingcake/utils.py`) in Lean 4.

Modelling conventions:
* Python strings are `List Char`; `str.lower()` is `lowerStr` (mapping
  `Char.toLower` over the characters); Python substring containment
  (`sub in s`) is `hasSubstr`.
* Python numbers appearing in the core computations are exact rationals
  (`Rat`); the delta computation divides numpy/pandas scalars, whose
  division by zero does not raise but silently yields a non-finite float
  (`inf`, `-inf`, or `nan`), modelled by `NpVal` and `npDiv`.
* Fallible Python evaluation is `Except PyErr _`: `IndexError` for list /
  positional-row indexing out of range, `KeyError` for a missing dict key
  or column, `UnboundLocalError` for reading a local variable that no
  branch assigned.
* Dates (`pandas.Timestamp` values compared with min/max) are `Int`.
-/

set_option autoImplicit false

deriving instance DecidableEq for Except

namespace BakingCake

/-- The Python exceptions the embedded core can raise. -/
inductive PyErr where
  | indexError
  | keyError
  | unboundLocal
  deriving DecidableEq, Repr

/-- Models Python `s.lower()` on the character list `s`. -/
def lowerStr (s : List Char) : List Char :=
  s.map Char.toLower

/-- Holds when `s` begins with `sub`. -/
def startsWith : List Char → List Char → Bool
  | _, [] => true
  | [], _ :: _ => false
  | a :: s, b :: t => a == b && startsWith s t

/-- Models Python `sub in s` (substring containment). -/
def hasSubstr : List Char → List Char → Bool
  | s, sub =>
    if startsWith s sub then true
    else
      match s with
      | [] => false
      | _ :: t => hasSubstr t sub

/-- A catalog entry of the coin list (an `AssetCandidate`): the fields of a
CoinGecko coin-list dict that the core reads (`symbol`, `id`). -/
structure Token where
  symbol : List Char
  id : List Char
  deriving DecidableEq, Repr

/-- Embeds the match-list comprehension shared by both resolver variants:
`[i for i in COIN_LIST if ticker.lower() == i["symbol"]]`. -/
def tokenMatches (coinList : List Token) (ticker : List Char) : List Token :=
  coinList.filter (fun i => lowerStr ticker == i.symbol)

/-- Embeds the `while True` tie-break scan of both `get_token_info`
variants, parameterized by the skip predicate `pred`.  The Python loop
reads `token_list[i]` for `i = 0, 1, 2, ...` and breaks on the first
candidate with `pred = false`; walking the index past the end of the list
raises `IndexError`, modelled as `none`.  The recursion consumes the
suffix of the list starting at the current index. -/
def tieBreakScan (pred : Token → Bool) : List Token → Option Token
  | [] => none
  | t :: rest => if pred t then tieBreakScan pred rest else some t

/-- The skip predicate of `interest.get_token_info`:
`"token" in token_info["id"]`. -/
def exclTokenPred (t : Token) : Bool :=
  hasSubstr t.id (("token").toList)

/-- The skip predicate of `utils.get_token_info`:
`"governance" not in token_info["id"] and "-" in token_info["id"]`. -/
def exclUtilsPred (t : Token) : Bool :=
  !hasSubstr t.id (("governance").toList) && hasSubstr t.id (("-").toList)

/-- Embeds `get_token_info` parameterized by the tie-break skip predicate
(`interest.py` and `utils.py` differ only there).  Returns the pair
`(token_info, success)`; the empty dict `{}` is `none`.  The multi-match
branch can raise `IndexError` via the tie-break scan. -/
def getTokenInfoWith (pred : Token → Bool) (coinList : List Token)
    (ticker : List Char) : Except PyErr (Option Token × Bool) :=
  let token_list := tokenMatches coinList ticker
  match token_list with
  | [] => Except.ok (none, false)
  | [t] => Except.ok (some t, true)
  | _ :: _ :: _ =>
    match tieBreakScan pred token_list with
    | some t => Except.ok (some t, true)
    | none => Except.error PyErr.indexError

/-- Embeds `interest.get_token_info` (skip predicate: id contains "token"). -/
def get_token_info (coinList : List Token) (ticker : List Char) :
    Except PyErr (Option Token × Bool) :=
  getTokenInfoWith exclTokenPred coinList ticker

/-- Embeds `utils.get_token_info` (skip predicate: id lacks "governance"
and contains a hyphen). -/
def get_token_info_utils (coinList : List Token) (ticker : List Char) :
    Except PyErr (Option Token × Bool) :=
  getTokenInfoWith exclUtilsPred coinList ticker

/-! ## Valuation (`interest.load_holdings`) -/

/-- An input holding record (`{ticker, quantity}` from the holdings file,
deserialization being external). -/
structure HoldingIn where
  ticker : List Char
  quantity : Rat
  deriving DecidableEq, Repr

/-- A holding after `load_holdings` has added `id`, `price` and `total`. -/
structure HoldingOut where
  ticker : List Char
  quantity : Rat
  id : List Char
  price : Rat
  total : Rat
  deriving DecidableEq, Repr

/-- One iteration of the `load_holdings` loop for a single holding:
`token_info, success = get_token_info(ticker)`, then
`token_info["id"]` (a `KeyError` on the empty dict when unresolved; the
`success` flag is never consulted), then the spot-price lookup (the
external provider, a black box modelled as a total function) and
`total = price * quantity`. -/
def valuateHolding (coinList : List Token) (priceLookup : List Char → Rat)
    (h : HoldingIn) : Except PyErr HoldingOut :=
  match get_token_info coinList h.ticker with
  | Except.error e => Except.error e
  | Except.ok (tokenInfo, _success) =>
    match tokenInfo with
    | none => Except.error PyErr.keyError
    | some t =>
      let price := priceLookup t.id
      Except.ok
        { ticker := h.ticker, quantity := h.quantity, id := t.id,
          price := price, total := price * h.quantity }

/-- Embeds `interest.load_holdings`: the loop over the holdings list; the
first raised exception aborts the whole call (no partial result). -/
def load_holdings (coinList : List Token) (priceLookup : List Char → Rat)
    (holdings : List HoldingIn) : Except PyErr (List HoldingOut) :=
  holdings.mapM (valuateHolding coinList priceLookup)

/-! ## Growth delta (`utils.calculate_delta`) -/

/-- A financial-statement row: the columns (KPIs) and their values, as an
association list (first binding wins, as for a dict / pandas column
lookup). -/
abbrev Row := List (List Char × Rat)

/-- Dict/column lookup on a row: `row[kpi]`, `KeyError` when absent. -/
def rowGet (r : Row) (kpi : List Char) : Except PyErr Rat :=
  match r.find? (fun kv => kv.1 == kpi) with
  | some kv => Except.ok kv.2
  | none => Except.error PyErr.keyError

/-- Positional row access then column lookup: `df.iloc[i][kpi]`;
`IndexError` when the row index is out of range. -/
def ilocGet (df : List Row) (i : Nat) (kpi : List Char) : Except PyErr Rat :=
  match df[i]? with
  | some r => rowGet r kpi
  | none => Except.error PyErr.indexError

/-- A numpy float value produced by the growth-rate expression: either a
finite value (kept exact) or one of the non-finite floats that numpy
scalar division by zero silently produces. -/
inductive NpVal where
  | num : Rat → NpVal
  | inf : NpVal
  | negInf : NpVal
  | nan : NpVal
  deriving DecidableEq, Repr

/-- Models numpy scalar division on the (exactly represented) statement
values: a zero denominator does not raise — numpy emits a RuntimeWarning
and yields `inf`, `-inf` or (for `0/0`) `nan`; otherwise the quotient. -/
def npDiv (a b : Rat) : NpVal :=
  if b = 0 then
    if 0 < a then NpVal.inf else if a < 0 then NpVal.negInf else NpVal.nan
  else NpVal.num (a / b)

/-- Models the trailing `* 100.0`: multiplying by the positive constant
preserves `inf`, `-inf` and `nan`. -/
def npMul100 (v : NpVal) : NpVal :=
  match v with
  | NpVal.num q => NpVal.num (q * 100)
  | v => v

/-- Embeds `utils.calculate_delta`.  `latest = 0`; `previous` is assigned
only by the `"annual"` (1) and `"quarterly"` (4) branches.  The growth
expression evaluates left to right: `df.iloc[latest][kpi]` first, then the
read of `previous` — which raises `UnboundLocalError` for any other period
string — then `df.iloc[previous][kpi]`, then the numpy scalar division
(which on a zero previous value silently yields a non-finite float, see
`npDiv`), then `* 100.0`. -/
def calculate_delta (df : List Row) (kpi : List Char) (period : List Char) :
    Except PyErr NpVal :=
  let latest : Nat := 0
  let previousOpt : Option Nat :=
    if period == ("annual").toList then some 1
    else if period == ("quarterly").toList then some 4
    else none
  match ilocGet df latest kpi with
  | Except.error e => Except.error e
  | Except.ok latestVal =>
    match previousOpt with
    | none => Except.error PyErr.unboundLocal
    | some previous =>
      match ilocGet df previous kpi with
      | Except.error e => Except.error e
      | Except.ok prevVal =>
        Except.ok (npMul100 (npDiv (latestVal - prevVal) prevVal))

/-- Holds (as `true`) exactly on the error outcome. -/
def isErr {ε α : Type} : Except ε α → Bool
  | Except.error _ => true
  | Except.ok _ => false

/-! ## Portfolio (`portfolio.py`) -/

/-- Modelled from the spec: the `holding` module (class `Holding`) that
`portfolio.py` imports is not under `src/`; spec §3 defines a Holding as
`{ticker, canonical_id, quantity ≥ 0, price ≥ 0, total = price × quantity,
annual_yield_usd ≥ 0}`.  Only the fields `portfolio.py` reads are kept. -/
structure Holding where
  ticker : List Char
  quantity : Rat
  price : Rat
  annual_yield_usd : Rat
  deriving DecidableEq, Repr

/-- Modelled from the spec: `total = price × quantity` (spec §3); the
computation lives in the missing `holding` module. -/
def Holding.total (h : Holding) : Rat :=
  h.price * h.quantity

/-- The portfolio yield dict built by `calculate_portfolio_yield`. -/
structure PortfolioYield where
  one_year_yield : Rat
  one_day_yield : Rat
  deriving DecidableEq, Repr

/-- Embeds `portfolio.calculate_portfolio_yield`:
`one_year_yield = sum(annual_yield_usd)`,
`one_day_yield = one_year_yield / 365.0`. -/
def calculate_portfolio_yield (holdingsList : List Holding) : PortfolioYield :=
  let oneYear := (holdingsList.map (fun h => h.annual_yield_usd)).sum
  { one_year_yield := oneYear, one_day_yield := oneYear / 365 }

/-- The `Portfolio` object: the fields set by `Portfolio.__init__`
(`portfolio_yeild` keeps the source's spelling). -/
structure Portfolio where
  holdings : List Holding
  portfolio_total : Rat
  portfolio_yeild : PortfolioYield
  deriving DecidableEq, Repr

/-- Embeds `Portfolio.__init__`:
`portfolio_total = sum(h.total for h in holdings)` and
`portfolio_yeild = calculate_portfolio_yield(holdings)`. -/
def portfolioInit (holdings : List Holding) : Portfolio :=
  { holdings := holdings
    portfolio_total := (holdings.map Holding.total).sum
    portfolio_yeild := calculate_portfolio_yield holdings }

/-! ## Volatility (`utils.get_volatility`) -/

/-- One historical price observation (a row of `price_action_df`).  Dates
are `Int` (only their order matters to the code). -/
structure PriceObs where
  ticker : List Char
  date : Int
  opn : Rat
  close : Rat
  low : Rat
  high : Rat
  changePercent : Rat
  deriving DecidableEq, Repr

/-- A cell of the volatility table: a number, a timestamp, or missing
(`NaN` from an unmatched join, or a non-finite float from the `return`
division when `open = 0`). -/
inductive PVal where
  | num : Rat → PVal
  | date : Int → PVal
  | missing : PVal
  deriving DecidableEq, Repr

def optNum : Option Rat → PVal
  | some q => PVal.num q
  | none => PVal.missing

/-- Insertion step of a stable insertion sort. -/
def insertLe {α : Type} (le : α → α → Bool) (a : α) : List α → List α
  | [] => [a]
  | b :: t => if le a b then a :: b :: t else b :: insertLe le a t

/-- Stable insertion sort by the boolean relation `le`. -/
def sortLe {α : Type} (le : α → α → Bool) : List α → List α
  | [] => []
  | a :: t => insertLe le a (sortLe le t)

/-- Lexicographic order on strings (used by pandas to sort group keys). -/
def strLeB : List Char → List Char → Bool
  | [], _ => true
  | _ :: _, [] => false
  | a :: s, b :: t => decide (a < b) || (a == b && strLeB s t)

/-- Minimum of a list of rationals (`Series.min`); 0 on the empty list,
which the code never reaches for a nonempty group. -/
def listMin : List Rat → Rat
  | [] => 0
  | a :: t => t.foldl min a

/-- Maximum of a list of rationals (`Series.max`). -/
def listMax : List Rat → Rat
  | [] => 0
  | a :: t => t.foldl max a

/-- Mean of a list of rationals (`describe`'s `mean`). -/
def listMean (xs : List Rat) : Rat :=
  xs.sum / (xs.length : Rat)

/-- Linear-interpolation percentile (`describe`'s quartiles): on the
sorted data of length `n`, position `p·(n−1)`, interpolating between the
neighbouring order statistics. -/
def percentile (xs : List Rat) (p : Rat) : Rat :=
  let s := sortLe (fun a b => decide (a ≤ b)) xs
  let n := s.length
  if n = 0 then 0
  else
    let pos := p * ((n : Rat) - 1)
    let i := pos.floor.toNat
    let frac := pos - (i : Rat)
    match s[i]?, s[i + 1]? with
    | some a, some b => a + frac * (b - a)
    | some a, none => a
    | none, _ => 0

/-- Models `price_action_df["date"].min()` over the whole input. -/
def minDate : List PriceObs → Int
  | [] => 0
  | o :: rest => rest.foldl (fun a b => min a b.date) o.date

/-- Models `price_action_df["date"].max()` over the whole input. -/
def maxDate : List PriceObs → Int
  | [] => 0
  | o :: rest => rest.foldl (fun a b => max a b.date) o.date

/-- The group keys of `groupby("ticker")`: the distinct tickers in
ascending order (pandas sorts group keys by default). -/
def sortedTickers (obs : List PriceObs) : List (List Char) :=
  sortLe strLeB (obs.map (fun o => o.ticker)).dedup

/-- The row of the volatility table for ticker `t`, as an association
list of column name to cell, mirroring `utils.get_volatility` column by
column: the `describe` statistics of `changePercent` for the group
(`std` is real-valued — the square root of the sample variance — hence
outside this exact-rational embedding; no claim mentions it and it is
omitted), the group-wide `low` min and `high` max, the window-global
`start`/`end` dates, the `open`/`close` values joined from the
observations at the global start/end date (first match per ticker; a
missing boundary observation joins as `NaN` = `missing`), the derived
`return = (close - open) / open` (non-finite, hence `missing`, when
`open = 0`), and finally the drop of the `count` column. -/
def volRow (obs : List PriceObs) (t : List Char) : List (List Char × PVal) :=
  let grp := obs.filter (fun o => o.ticker == t)
  let cp := grp.map (fun o => o.changePercent)
  let lowV := listMin (grp.map (fun o => o.low))
  let highV := listMax (grp.map (fun o => o.high))
  let start := minDate obs
  let stop := maxDate obs
  let openV := ((obs.filter (fun o => o.date == start)).find?
    (fun o => o.ticker == t)).map (fun o => o.opn)
  let closeV := ((obs.filter (fun o => o.date == stop)).find?
    (fun o => o.ticker == t)).map (fun o => o.close)
  let retV : PVal :=
    match openV, closeV with
    | some o, some c => if o = 0 then PVal.missing else PVal.num ((c - o) / o)
    | _, _ => PVal.missing
  ([((("count").toList), PVal.num ((grp.length : Rat))),
    ((("mean").toList), PVal.num (listMean cp)),
    ((("min").toList), PVal.num (listMin cp)),
    ((("25%").toList), PVal.num (percentile cp (1 / 4))),
    ((("50%").toList), PVal.num (percentile cp (1 / 2))),
    ((("75%").toList), PVal.num (percentile cp (3 / 4))),
    ((("max").toList), PVal.num (listMax cp)),
    ((("low").toList), PVal.num lowV),
    ((("high").toList), PVal.num highV),
    ((("start").toList), PVal.date start),
    ((("end").toList), PVal.date stop),
    ((("open").toList), optNum openV),
    ((("close").toList), optNum closeV),
    ((("return").toList), retV)]).filter
      (fun kv => !(kv.1 == (("count").toList)))

/-- Embeds `utils.get_volatility`: one row per distinct ticker, in the
groupby key order. -/
def get_volatility (obs : List PriceObs) : List (List Char × List (List Char × PVal)) :=
  (sortedTickers obs).map (fun t => (t, volRow obs t))

/-- Column lookup in a volatility row. -/
def colVal (row : List (List Char × PVal)) (k : List Char) : Option PVal :=
  (row.find? (fun kv => kv.1 == k)).map (fun kv => kv.2)

/-! ## Rate converter (`utils.calculate_apy` / `utils.calculate_apr`) -/

/-- Embeds `utils.calculate_apy`: `(1 + apr/n)^n − 1`, over the reals
(the code computes with `np.power`; real exponentiation makes the
definition noncomputable). -/
noncomputable def calculate_apy (apr : ℝ) (n : ℝ) : ℝ :=
  (1 + apr / n) ^ n - 1

/-- Embeds `utils.calculate_apr`: `n·((apy + 1)^(1/n) − 1)`, over the
reals. -/
noncomputable def calculate_apr (apy : ℝ) (n : ℝ) : ℝ :=
  n * ((apy + 1) ^ (1 / n) - 1)

/-! ## Concrete inputs used by the witnesses and counterexamples -/

/-- Two candidates sharing symbol "uni", both excluded by both skip
predicates (each id contains "token", contains a hyphen, and lacks
"governance"). -/
def exC1cat : List Token :=
  [⟨("uni").toList, ("uni-token-a").toList⟩,
   ⟨("uni").toList, ("uni-token-b").toList⟩]

/-- Three candidates sharing symbol "uni"; only the middle one
("uniswap") lacks the exclusion marker "token". -/
def exC5cat : List Token :=
  [⟨("uni").toList, ("unicorn-token").toList⟩,
   ⟨("uni").toList, ("uniswap").toList⟩,
   ⟨("uni").toList, ("uni-token-x").toList⟩]

/-- A one-candidate catalog whose stored symbol is upper-case. -/
def exC4catUpper : List Token :=
  [⟨("UNI").toList, ("uniswap").toList⟩]

/-- The same catalog with the stored symbol lower-cased. -/
def exC4catLower : List Token :=
  [⟨("uni").toList, ("uniswap").toList⟩]

/-- The spec's example statement table: rows `[{"rev":110},{"rev":100}]`. -/
def exC7df : List Row :=
  [[(("rev").toList, 110)], [(("rev").toList, 100)]]

/-- A five-row quarterly statement table (row 4 holds 100). -/
def exC7qdf : List Row :=
  [[(("rev").toList, 120)], [(("rev").toList, 105)], [(("rev").toList, 102)],
   [(("rev").toList, 101)], [(("rev").toList, 100)]]

/-- An annual statement table whose previous-year value is 0. -/
def exC3df : List Row :=
  [[(("rev").toList, 110)], [(("rev").toList, 0)]]

/-- A quarterly statement table whose four-quarters-ago value is 0. -/
def exC3qdf : List Row :=
  [[(("rev").toList, 110)], [(("rev").toList, 1)], [(("rev").toList, 2)],
   [(("rev").toList, 3)], [(("rev").toList, 0)]]

/-- The spec's volatility example: ticker "X" observed on dates 1 and 31,
opening at 10 on the first date and closing at 15 on the last. -/
def exC6obs : List PriceObs :=
  [⟨("X").toList, 1, 10, 12, 9, 13, 2⟩,
   ⟨("X").toList, 31, 12, 15, 11, 16, 3⟩]

/-- A holding whose ticker has no catalog match in `exC1cat`. -/
def exC2holding : HoldingIn :=
  ⟨("btc").toList, 2⟩

/-- A holding with quantity 0. -/
def exC8h0 : Holding :=
  ⟨("aaa").toList, 0, 7, 3⟩

/-- An ordinary holding. -/
def exC8h1 : Holding :=
  ⟨("bbb").toList, 2, 5, 100⟩

/-! ## Helper lemmas -/

/-- The tie-break scan is `find?` of the negated skip predicate: it
returns the first candidate that does not satisfy `pred`, and `none`
(`IndexError`) when every candidate satisfies it. -/
theorem tieBreakScan_eq_find (pred : Token → Bool) (tl : List Token) :
    tieBreakScan pred tl = tl.find? (fun t => !pred t) := by
  induction tl with
  | nil => rfl
  | cons t rest ih =>
    cases h : pred t with
    | true => simp [tieBreakScan, List.find?, h, ih]
    | false => simp [tieBreakScan, List.find?, h]

/-- With at least two matches, all of them satisfying the skip predicate,
the parameterized resolver raises `IndexError`. -/
theorem getTokenInfoWith_all_excluded (pred : Token → Bool)
    (coinList : List Token) (ticker : List Char)
    (h2 : 2 ≤ (tokenMatches coinList ticker).length)
    (ha : ∀ t ∈ tokenMatches coinList ticker, pred t = true) :
    getTokenInfoWith pred coinList ticker = Except.error PyErr.indexError := by
  have hscan : tieBreakScan pred (tokenMatches coinList ticker) = none := by
    rw [tieBreakScan_eq_find, List.find?_eq_none]
    intro a hmem
    simp [ha a hmem]
  unfold getTokenInfoWith
  cases htl : tokenMatches coinList ticker with
  | nil => rw [htl] at h2; simp at h2
  | cons a rest =>
    cases rest with
    | nil => rw [htl] at h2; simp at h2
    | cons b rest2 =>
      rw [htl] at hscan
      simp [hscan]

/-- With at least two matches, the parameterized resolver returns the
first candidate not satisfying the skip predicate when one exists. -/
theorem getTokenInfoWith_found (pred : Token → Bool)
    (coinList : List Token) (ticker : List Char) (t : Token)
    (h2 : 2 ≤ (tokenMatches coinList ticker).length)
    (hfind : (tokenMatches coinList ticker).find? (fun u => !pred u) = some t) :
    getTokenInfoWith pred coinList ticker = Except.ok (some t, true) := by
  have hscan : tieBreakScan pred (tokenMatches coinList ticker) = some t := by
    rw [tieBreakScan_eq_find, hfind]
  unfold getTokenInfoWith
  cases htl : tokenMatches coinList ticker with
  | nil => rw [htl] at h2; simp at h2
  | cons a rest =>
    cases rest with
    | nil => rw [htl] at h2; simp at h2
    | cons b rest2 =>
      rw [htl] at hscan
      simp [hscan]

/-! ## Claim theorems -/

/-- C1 counterexample: on a catalog where both matching candidates carry
the exclusion marker, `interest.get_token_info` raises `IndexError`
(modelled `Except.error`) — it does not return the final element of the
match list. -/
theorem get_token_info_all_excluded_cex :
    tokenMatches exC1cat (("UNI").toList) = exC1cat ∧
    get_token_info exC1cat (("UNI").toList) = Except.error PyErr.indexError ∧
    get_token_info exC1cat (("UNI").toList) ≠
      Except.ok (some ⟨("uni").toList, ("uni-token-b").toList⟩, true) := by
  refine ⟨by decide, by decide, by decide⟩

/-- C1 (amended): when a ticker has at least two catalog matches and
every matching candidate satisfies the exclusion predicate, the tie-break
scan of both resolver variants walks past the end of the match list and
the resolution fails with `IndexError`; no candidate (in particular not
the last examined one) is returned. -/
theorem get_token_info_all_excluded_raises (coinList : List Token)
    (ticker : List Char)
    (h2 : 2 ≤ (tokenMatches coinList ticker).length)
    (ha : ∀ t ∈ tokenMatches coinList ticker, exclTokenPred t = true)
    (hb : ∀ t ∈ tokenMatches coinList ticker, exclUtilsPred t = true) :
    get_token_info coinList ticker = Except.error PyErr.indexError ∧
    get_token_info_utils coinList ticker = Except.error PyErr.indexError :=
  ⟨getTokenInfoWith_all_excluded exclTokenPred coinList ticker h2 ha,
   getTokenInfoWith_all_excluded exclUtilsPred coinList ticker h2 hb⟩

/-- Witness for the amended C1 theorem at the concrete catalog
`exC1cat`. -/
theorem get_token_info_all_excluded_raises_wit :
    (2 ≤ (tokenMatches exC1cat (("UNI").toList)).length) ∧
    get_token_info exC1cat (("UNI").toList) = Except.error PyErr.indexError ∧
    get_token_info_utils exC1cat (("UNI").toList) = Except.error PyErr.indexError := by
  refine ⟨by decide, ?_⟩
  exact get_token_info_all_excluded_raises exC1cat (("UNI").toList)
    (by decide) (by decide) (by decide)

/-- C4 counterexample: the code lowercases only the input ticker
(`ticker.lower() == i["symbol"]`), so a candidate whose stored symbol is
"UNI" does not match the ticker "uni" although the two are equal ignoring
case, while the same candidate with symbol "uni" does match: the match
set is not invariant under changing the case of a candidate's symbol. -/
theorem tokenMatches_symbol_case_cex :
    lowerStr (("UNI").toList) = lowerStr (("uni").toList) ∧
    tokenMatches exC4catUpper (("uni").toList) = [] ∧
    tokenMatches exC4catLower (("uni").toList) = exC4catLower := by
  refine ⟨by decide, by decide, by decide⟩

/-- C4 (amended): resolution compares the lowercased input ticker for
exact equality with the stored candidate symbol; hence the match set —
and the whole resolution — is unchanged by changing the case of the
input ticker, but not by changing the case of a candidate's symbol. -/
theorem tokenMatches_input_case_invariant (catalog : List Token)
    (t u : List Char) (h : lowerStr t = lowerStr u) :
    tokenMatches catalog t = tokenMatches catalog u ∧
    get_token_info catalog t = get_token_info catalog u := by
  have hm : tokenMatches catalog t = tokenMatches catalog u := by
    unfold tokenMatches
    rw [h]
  refine ⟨hm, ?_⟩
  unfold get_token_info getTokenInfoWith
  rw [hm]

/-- Witness for the amended C4 theorem: tickers "UnI" and "uni" resolve
identically over `exC5cat`. -/
theorem tokenMatches_input_case_invariant_wit :
    lowerStr (("UnI").toList) = lowerStr (("uni").toList) ∧
    tokenMatches exC5cat (("UnI").toList) = tokenMatches exC5cat (("uni").toList) ∧
    get_token_info exC5cat (("UnI").toList) = get_token_info exC5cat (("uni").toList) := by
  refine ⟨by decide, ?_, ?_⟩
  · exact (tokenMatches_input_case_invariant exC5cat (("UnI").toList)
      (("uni").toList) (by decide)).1
  · exact (tokenMatches_input_case_invariant exC5cat (("UnI").toList)
      (("uni").toList) (by decide)).2

/-- C5: with at least two catalog matches, `interest.get_token_info`
returns the first candidate, in list order, that does not satisfy the
exclusion predicate (id contains "token"), whenever such a candidate
exists. -/
theorem get_token_info_first_non_excluded (coinList : List Token)
    (ticker : List Char) (t : Token)
    (h2 : 2 ≤ (tokenMatches coinList ticker).length)
    (hfind : (tokenMatches coinList ticker).find?
      (fun u => !exclTokenPred u) = some t) :
    get_token_info coinList ticker = Except.ok (some t, true) :=
  getTokenInfoWith_found exclTokenPred coinList ticker t h2 hfind

/-- Witness for C5: on the three-candidate "uni" catalog whose only
non-marked candidate ("uniswap") sits in the middle, resolution returns
exactly that candidate. -/
theorem get_token_info_first_non_excluded_wit :
    2 ≤ (tokenMatches exC5cat (("UNI").toList)).length ∧
    (tokenMatches exC5cat (("UNI").toList)).find? (fun u => !exclTokenPred u) =
      some ⟨("uni").toList, ("uniswap").toList⟩ ∧
    get_token_info exC5cat (("UNI").toList) =
      Except.ok (some ⟨("uni").toList, ("uniswap").toList⟩, true) := by
  refine ⟨by decide, by decide, ?_⟩
  exact get_token_info_first_non_excluded exC5cat (("UNI").toList)
    ⟨("uni").toList, ("uniswap").toList⟩ (by decide) (by decide)

/-- If one element of the list makes `f` fail, `mapM f` never succeeds:
the first failure aborts the whole traversal. -/
theorem mapM_ne_ok_of_mem_err {α β : Type} (f : α → Except PyErr β)
    (hs : List α) (h : α) (hmem : h ∈ hs) (herr : isErr (f h) = true) :
    ∀ res, hs.mapM f ≠ Except.ok res := by
  induction hs with
  | nil => cases hmem
  | cons a rest ih =>
    intro res hok
    rw [List.mapM_cons] at hok
    cases hmem with
    | head =>
      cases hfa : f h with
      | error e => rw [hfa] at hok; cases hok
      | ok b => rw [hfa] at herr; cases herr
    | tail _ hmem2 =>
      cases hfa : f a with
      | error e => rw [hfa] at hok; cases hok
      | ok b =>
        rw [hfa] at hok
        cases hrest : rest.mapM f with
        | error e => rw [hrest] at hok; cases hok
        | ok bs => exact ih hmem2 bs hrest

/-- C2: a holding whose ticker has zero catalog matches fails — the
resolver reports no match (empty dict), reading `token_info["id"]`
raises `KeyError`, and `load_holdings` propagates the failure: it never
returns a successful holdings list, so the unresolved holding is never
valued. -/
theorem load_holdings_unresolved_fails (coinList : List Token)
    (priceLookup : List Char → Rat) (hs : List HoldingIn) (h : HoldingIn)
    (hmem : h ∈ hs) (hnomatch : tokenMatches coinList h.ticker = []) :
    valuateHolding coinList priceLookup h = Except.error PyErr.keyError ∧
    ∀ res, load_holdings coinList priceLookup hs ≠ Except.ok res := by
  have hv : valuateHolding coinList priceLookup h = Except.error PyErr.keyError := by
    unfold valuateHolding get_token_info getTokenInfoWith
    rw [hnomatch]
  refine ⟨hv, ?_⟩
  exact mapM_ne_ok_of_mem_err (valuateHolding coinList priceLookup) hs h hmem
    (by rw [hv]; rfl)

/-- Witness for C2: the ticker "btc" has no match in `exC1cat`, and the
whole `load_holdings` call fails. -/
theorem load_holdings_unresolved_fails_wit :
    exC2holding ∈ [exC2holding] ∧
    tokenMatches exC1cat exC2holding.ticker = [] ∧
    valuateHolding exC1cat (fun _ => 5) exC2holding = Except.error PyErr.keyError ∧
    ∀ res, load_holdings exC1cat (fun _ => 5) [exC2holding] ≠ Except.ok res := by
  refine ⟨by decide, by decide, ?_⟩
  exact load_holdings_unresolved_fails exC1cat (fun _ => 5) [exC2holding]
    exC2holding (by decide) (by decide)

/-- C3, evaluated at the failing input: on a table whose previous-period
KPI value is 0 (annual row 1, quarterly row 4), `calculate_delta` does
not fail — numpy scalar division by zero silently yields infinity (with
only a RuntimeWarning), so the delta is reported as `inf` and no error
reaches the caller, contradicting the claimed `DivisionByZeroError`
propagation. -/
theorem calculate_delta_zero_previous_inf :
    ilocGet exC3df 1 (("rev").toList) = Except.ok 0 ∧
    calculate_delta exC3df (("rev").toList) (("annual").toList) =
      Except.ok NpVal.inf ∧
    isErr (calculate_delta exC3df (("rev").toList) (("annual").toList)) = false ∧
    ilocGet exC3qdf 4 (("rev").toList) = Except.ok 0 ∧
    calculate_delta exC3qdf (("rev").toList) (("quarterly").toList) =
      Except.ok NpVal.inf := by
  have ea : calculate_delta exC3df (("rev").toList) (("annual").toList) =
      Except.ok (npMul100 (npDiv (110 - 0) 0)) := rfl
  have eq4 : calculate_delta exC3qdf (("rev").toList) (("quarterly").toList) =
      Except.ok (npMul100 (npDiv (110 - 0) 0)) := rfl
  have hval : npMul100 (npDiv ((110 : Rat) - 0) 0) = NpVal.inf := by
    norm_num [npDiv, npMul100]
  refine ⟨by decide, ?_, ?_, by decide, ?_⟩
  · rw [ea, hval]
  · rw [ea]; rfl
  · rw [eq4, hval]

/-- C7: with a nonzero previous value, the annual delta compares row 0 to
row 1 and the quarterly delta compares row 0 to row 4, both returning
`(latest − previous) / previous × 100`; on the spec's example table the
annual delta is exactly 10. -/
theorem calculate_delta_formula (df : List Row) (kpi : List Char) (l p : Rat) :
    (ilocGet df 0 kpi = Except.ok l → ilocGet df 1 kpi = Except.ok p → p ≠ 0 →
      calculate_delta df kpi (("annual").toList) =
        Except.ok (NpVal.num ((l - p) / p * 100))) ∧
    (ilocGet df 0 kpi = Except.ok l → ilocGet df 4 kpi = Except.ok p → p ≠ 0 →
      calculate_delta df kpi (("quarterly").toList) =
        Except.ok (NpVal.num ((l - p) / p * 100))) ∧
    calculate_delta exC7df (("rev").toList) (("annual").toList) =
      Except.ok (NpVal.num 10) := by
  have e3 : calculate_delta exC7df (("rev").toList) (("annual").toList) =
      Except.ok (npMul100 (npDiv (110 - 100) 100)) := rfl
  have ea : calculate_delta df kpi (("annual").toList) =
      (match ilocGet df 0 kpi with
      | Except.error e => Except.error e
      | Except.ok latestVal =>
        match ilocGet df 1 kpi with
        | Except.error e => Except.error e
        | Except.ok prevVal =>
          Except.ok (npMul100 (npDiv (latestVal - prevVal) prevVal))) := rfl
  have eq4 : calculate_delta df kpi (("quarterly").toList) =
      (match ilocGet df 0 kpi with
      | Except.error e => Except.error e
      | Except.ok latestVal =>
        match ilocGet df 4 kpi with
        | Except.error e => Except.error e
        | Except.ok prevVal =>
          Except.ok (npMul100 (npDiv (latestVal - prevVal) prevVal))) := rfl
  refine ⟨?_, ?_, ?_⟩
  · intro hlat hprev hp
    rw [ea, hlat, hprev]
    simp [npDiv, npMul100, hp]
  · intro hlat hprev hp
    rw [eq4, hlat, hprev]
    simp [npDiv, npMul100, hp]
  · rw [e3]
    norm_num [npDiv, npMul100]

/-- Witness for C7 at the concrete tables: the annual delta of `exC7df`
is 10 and the quarterly delta of `exC7qdf` is 20. -/
theorem calculate_delta_formula_wit :
    ilocGet exC7df 0 (("rev").toList) = Except.ok 110 ∧
    ilocGet exC7df 1 (("rev").toList) = Except.ok 100 ∧
    calculate_delta exC7df (("rev").toList) (("annual").toList) =
      Except.ok (NpVal.num 10) ∧
    calculate_delta exC7qdf (("rev").toList) (("quarterly").toList) =
      Except.ok (NpVal.num 20) := by
  refine ⟨by decide, by decide, ?_, ?_⟩
  · have h := (calculate_delta_formula exC7df (("rev").toList) 110 100).1
      (by decide) (by decide) (by norm_num)
    rw [h]
    exact congrArg (fun q => Except.ok (NpVal.num q)) (by norm_num)
  · have h := (calculate_delta_formula exC7qdf (("rev").toList) 120 100).2.1
      (by decide) (by decide) (by norm_num)
    rw [h]
    exact congrArg (fun q => Except.ok (NpVal.num q)) (by norm_num)

/-- C10: for a period string other than "annual" and "quarterly" the
local `previous` is never assigned, so `calculate_delta` never returns a
value; once the latest-row lookup succeeds, the failure is precisely the
read of the unbound local (`UnboundLocalError`), not a fallback to either
comparison. -/
theorem calculate_delta_bad_period_errors (df : List Row) (kpi period : List Char)
    (hann : period ≠ ("annual").toList) (hq : period ≠ ("quarterly").toList) :
    isErr (calculate_delta df kpi period) = true ∧
    (∀ l, ilocGet df 0 kpi = Except.ok l →
      calculate_delta df kpi period = Except.error PyErr.unboundLocal) := by
  have hb1 : (period == ("annual").toList) = false := beq_eq_false_iff_ne.mpr hann
  have hb2 : (period == ("quarterly").toList) = false := beq_eq_false_iff_ne.mpr hq
  have e : calculate_delta df kpi period =
      (match ilocGet df 0 kpi with
      | Except.error e => Except.error e
      | Except.ok _ => Except.error PyErr.unboundLocal) := by
    unfold calculate_delta
    rw [hb1, hb2]
    rfl
  constructor
  · rw [e]
    cases hlat : ilocGet df 0 kpi with
    | error e2 => rfl
    | ok l => rfl
  · intro l hlat
    rw [e, hlat]

/-- Witness for C10: the period "monthly" makes `calculate_delta` fail
with the unbound-local error on the spec's example table. -/
theorem calculate_delta_bad_period_errors_wit :
    (("monthly").toList ≠ ("annual").toList) ∧
    (("monthly").toList ≠ ("quarterly").toList) ∧
    isErr (calculate_delta exC7df (("rev").toList) (("monthly").toList)) = true ∧
    calculate_delta exC7df (("rev").toList) (("monthly").toList) =
      Except.error PyErr.unboundLocal := by
  refine ⟨by decide, by decide, ?_, ?_⟩
  · exact (calculate_delta_bad_period_errors exC7df (("rev").toList)
      (("monthly").toList) (by decide) (by decide)).1
  · exact (calculate_delta_bad_period_errors exC7df (("rev").toList)
      (("monthly").toList) (by decide) (by decide)).2 110 (by decide)

/-- Insertion keeps exactly the old elements plus the inserted one. -/
theorem mem_insertLe {α : Type} (le : α → α → Bool) (a b : α) (l : List α) :
    b ∈ insertLe le a l ↔ b = a ∨ b ∈ l := by
  induction l with
  | nil => simp [insertLe]
  | cons c t ih =>
    unfold insertLe
    by_cases h : le a c = true
    · simp [h, List.mem_cons]
    · simp only [h, if_false, Bool.false_eq_true, List.mem_cons, ih]
      tauto

/-- Sorting keeps exactly the same elements. -/
theorem mem_sortLe {α : Type} (le : α → α → Bool) (a : α) (l : List α) :
    a ∈ sortLe le l ↔ a ∈ l := by
  induction l with
  | nil => simp [sortLe]
  | cons b t ih => simp [sortLe, mem_insertLe, ih]

/-- C6: every ticker's volatility row takes `open` from that ticker's
observation at the window-start date and `close` from its observation at
the window-end date, where start/end are the min/max date over the
*entire* input; `return = (close − open) / open`; the `count` statistic
is dropped from the output; and the row appears in the `get_volatility`
output for every ticker present in the input. -/
theorem get_volatility_open_close_return (obs : List PriceObs) (t : List Char)
    (o1 o2 : PriceObs)
    (h1 : (obs.filter (fun o => o.date == minDate obs)).find?
      (fun o => o.ticker == t) = some o1)
    (h2 : (obs.filter (fun o => o.date == maxDate obs)).find?
      (fun o => o.ticker == t) = some o2)
    (h3 : o1.opn ≠ 0) :
    colVal (volRow obs t) (("open").toList) = some (PVal.num o1.opn) ∧
    colVal (volRow obs t) (("close").toList) = some (PVal.num o2.close) ∧
    colVal (volRow obs t) (("return").toList) =
      some (PVal.num ((o2.close - o1.opn) / o1.opn)) ∧
    colVal (volRow obs t) (("count").toList) = none ∧
    colVal (volRow obs t) (("start").toList) = some (PVal.date (minDate obs)) ∧
    colVal (volRow obs t) (("end").toList) = some (PVal.date (maxDate obs)) ∧
    (t ∈ obs.map (fun o => o.ticker) → (t, volRow obs t) ∈ get_volatility obs) := by
  have eOpen : colVal (volRow obs t) (("open").toList) =
      some (optNum (((obs.filter (fun o => o.date == minDate obs)).find?
        (fun o => o.ticker == t)).map (fun o => o.opn))) := rfl
  have eClose : colVal (volRow obs t) (("close").toList) =
      some (optNum (((obs.filter (fun o => o.date == maxDate obs)).find?
        (fun o => o.ticker == t)).map (fun o => o.close))) := rfl
  have eRet : colVal (volRow obs t) (("return").toList) = some (
      match (((obs.filter (fun o => o.date == minDate obs)).find?
          (fun o => o.ticker == t)).map (fun o => o.opn)),
        (((obs.filter (fun o => o.date == maxDate obs)).find?
          (fun o => o.ticker == t)).map (fun o => o.close)) with
      | some o, some c => if o = 0 then PVal.missing else PVal.num ((c - o) / o)
      | _, _ => PVal.missing) := rfl
  refine ⟨?_, ?_, ?_, rfl, rfl, rfl, ?_⟩
  · rw [eOpen, h1]
    rfl
  · rw [eClose, h2]
    rfl
  · rw [eRet, h1, h2]
    simp [h3]
  · intro hmem
    have hst : t ∈ sortedTickers obs := by
      unfold sortedTickers
      rw [mem_sortLe, List.mem_dedup]
      exact hmem
    exact List.mem_map_of_mem _ hst

/-- Witness for C6 at the spec's example: ticker "X" observed on date 1
(open 10) through date 31 (close 15); the summary's return is
`(15 − 10) / 10 = 1/2` and no `count` column remains. -/
theorem get_volatility_open_close_return_wit :
    (exC6obs.filter (fun o => o.date == minDate exC6obs)).find?
      (fun o => o.ticker == ("X").toList) =
        some ⟨("X").toList, 1, 10, 12, 9, 13, 2⟩ ∧
    (exC6obs.filter (fun o => o.date == maxDate exC6obs)).find?
      (fun o => o.ticker == ("X").toList) =
        some ⟨("X").toList, 31, 12, 15, 11, 16, 3⟩ ∧
    colVal (volRow exC6obs (("X").toList)) (("open").toList) =
      some (PVal.num 10) ∧
    colVal (volRow exC6obs (("X").toList)) (("close").toList) =
      some (PVal.num 15) ∧
    colVal (volRow exC6obs (("X").toList)) (("return").toList) =
      some (PVal.num (1 / 2)) ∧
    colVal (volRow exC6obs (("X").toList)) (("count").toList) = none := by
  have h1 : (exC6obs.filter (fun o => o.date == minDate exC6obs)).find?
      (fun o => o.ticker == ("X").toList) =
        some ⟨("X").toList, 1, 10, 12, 9, 13, 2⟩ := by decide
  have h2 : (exC6obs.filter (fun o => o.date == maxDate exC6obs)).find?
      (fun o => o.ticker == ("X").toList) =
        some ⟨("X").toList, 31, 12, 15, 11, 16, 3⟩ := by decide
  have hmain := get_volatility_open_close_return exC6obs (("X").toList)
    ⟨("X").toList, 1, 10, 12, 9, 13, 2⟩ ⟨("X").toList, 31, 12, 15, 11, 16, 3⟩
    h1 h2 (by decide)
  have h5 : colVal (volRow exC6obs (("X").toList)) (("return").toList) =
      some (PVal.num (((15 : Rat) - 10) / 10)) := hmain.2.2.1
  have hr : ((15 : Rat) - 10) / 10 = 1 / 2 := by norm_num
  rw [hr] at h5
  exact ⟨h1, h2, hmain.1, hmain.2.1, h5, hmain.2.2.2.1⟩

/-- C8: the constructed portfolio's total is the sum of every holding's
total and its yield dict sums every holding's `annual_yield_usd`, with
`one_day_yield = one_year_yield / 365`; a holding with quantity 0 has
total 0 and is included in the sum without changing it (and without
error). -/
theorem portfolioInit_totals (holdings : List Holding) (h : Holding)
    (hq : h.quantity = 0) :
    (portfolioInit holdings).portfolio_total = (holdings.map Holding.total).sum ∧
    (portfolioInit holdings).portfolio_yeild.one_year_yield =
      (holdings.map (fun x => x.annual_yield_usd)).sum ∧
    (portfolioInit holdings).portfolio_yeild.one_day_yield =
      (portfolioInit holdings).portfolio_yeild.one_year_yield / 365 ∧
    Holding.total h = 0 ∧
    (portfolioInit (h :: holdings)).portfolio_total =
      (portfolioInit holdings).portfolio_total := by
  have ht : Holding.total h = 0 := by
    unfold Holding.total
    rw [hq, mul_zero]
  refine ⟨rfl, rfl, rfl, ht, ?_⟩
  show ((h :: holdings).map Holding.total).sum = (holdings.map Holding.total).sum
  rw [List.map_cons, List.sum_cons, ht, zero_add]

/-- Witness for C8 at a two-holding portfolio whose first holding has
quantity 0. -/
theorem portfolioInit_totals_wit :
    exC8h0.quantity = 0 ∧
    Holding.total exC8h0 = 0 ∧
    (portfolioInit [exC8h0, exC8h1]).portfolio_total =
      (portfolioInit [exC8h1]).portfolio_total ∧
    (portfolioInit [exC8h1]).portfolio_yeild.one_day_yield =
      (portfolioInit [exC8h1]).portfolio_yeild.one_year_yield / 365 := by
  refine ⟨by norm_num [exC8h0], ?_, ?_, ?_⟩
  · exact (portfolioInit_totals [exC8h1] exC8h0 (by norm_num [exC8h0])).2.2.2.1
  · exact (portfolioInit_totals [exC8h1] exC8h0 (by norm_num [exC8h0])).2.2.2.2
  · exact (portfolioInit_totals [exC8h1] exC8h0 (by norm_num [exC8h0])).2.2.1

/-- C9: over the reals, the APR→APY and APY→APR conversions are mutual
inverses: for `n > 0` and `x > −n`,
`calculate_apr (calculate_apy x n) n = x` exactly. -/
theorem apr_apy_roundtrip (x n : ℝ) (h1 : -n < x) (h2 : 0 < n) :
    calculate_apr (calculate_apy x n) n = x := by
  have hn : (n : ℝ) ≠ 0 := ne_of_gt h2
  have hb : (0 : ℝ) < 1 + x / n := by
    have hdiv : -n / n < x / n := by
      apply div_lt_div_of_pos_right h1 h2
    rw [neg_div, div_self hn] at hdiv
    linarith
  unfold calculate_apy calculate_apr
  have hcancel : (1 + x / n) ^ n - 1 + 1 = (1 + x / n) ^ n := by ring
  rw [hcancel, ← Real.rpow_mul hb.le, mul_one_div_cancel hn, Real.rpow_one]
  field_simp

/-- Witness for C9 at `x = 1`, `n = 365`. -/
theorem apr_apy_roundtrip_wit :
    (-(365 : ℝ) < 1) ∧ ((0 : ℝ) < 365) ∧
    calculate_apr (calculate_apy 1 365) 365 = 1 :=
  ⟨by norm_num, by norm_num,
   apr_apy_roundtrip 1 365 (by norm_num) (by norm_num)⟩

end BakingCake
